import Mathlib

/-!
# Verification of the barcode / QR-code generator

A shallow embedding of `src/main.py` (functions `generate_barcode`,
`generate_qrcode` and `main`) together with a model of the validation and
version-selection layers of the two third-party encoder libraries that the
adapters call (`python-barcode` and `qrcode`).  Python strings are embedded
as `List Char`, Python floats occurring in the writer options as `ℚ`, and
Python exceptions as an explicit `Except` layer; the observable outcome of
a whole call — a normal return or an exception propagating to the caller —
is a `PyCall`.
-/

/-- A Python `str`, embedded as its list of Unicode code points. -/
abbrev PyStr := List Char

/-- Python `str.isdigit` restricted to ASCII content: an empty string is not
a digit string.  (All strings the digit-based symbologies accept are ASCII,
where this coincides with Python's behaviour.) -/
def pyIsdigit (s : PyStr) : Bool := !s.isEmpty && s.all Char.isDigit

/-- The numeric value of an ASCII digit character. -/
def digitVal (c : Char) : ℕ := c.toNat - 48

/-- The exception classes of the `barcode` library relevant to the
`except` chain at lines 34-45 of `src/main.py`: `BarcodeNotFoundError`
(named by the clause at line 34), `NumberOfDigitsError` (raised by the
length checks in `ean.py`/`upc.py`/`codex.py`), `IllegalCharacterError`,
and a catch-all constructor for every other exception (the `KeyError` from
the Code 39 checksum table lookup, the bare `BarcodeError` from an invalid
PZN checksum, ...).  The library defines no `NumberError` class — the name
the clause at line 37 tries to resolve. -/
inductive PyExc : Type
  | barcodeNotFound : PyExc
  | numberOfDigits : PyExc
  | illegalCharacter : PyExc
  | other : PyExc
deriving DecidableEq, Repr

/-- The failure taxonomy of the spec (§4.1 / §7), naming the `st.error`
branches of the two adapters: `UnsupportedSymbology` for the working
handler at line 34, `InvalidPayload` and `IllegalCharacter` for the
handlers at lines 37 and 40 — which turn out to be unreachable, see
`generate_barcode` — and `Unknown` for the catch-alls at line 43
(likewise unreachable) and line 72 (the working one of
`generate_qrcode`). -/
inductive FailKind : Type
  | unsupportedSymbology : FailKind
  | invalidPayload : FailKind
  | illegalCharacter : FailKind
  | unknown : FailKind
deriving DecidableEq, Repr

/-! ## Model of the `python-barcode` validation layer

The six symbology classes offered by the UI.  Each `sym*Init` definition
models the `__init__` of the corresponding class in `python-barcode`
(`ean.py`, `upc.py`, `codex.py`): the validation it performs, which
exception it raises, and the full code string it keeps for rendering. -/

/-- The 43-character Code 39 alphabet in checksum-value order, as in
`barcode/charsets/code39.py`. -/
def code39Alphabet : PyStr := "0123456789ABCDEFGHIJKLMNOPQRSTUVWXYZ-. $/+%".toList

/-- Membership in the Code 39 charset table. -/
def code39Mem (c : Char) : Bool := code39Alphabet.contains c

/-- The value of a Code 39 character (its index in the table). -/
def code39Val (c : Char) : ℕ := code39Alphabet.indexOf c

/-- Membership in `barcode/charsets/code128.py`'s `ALL` charset: the union
of code sets A (ASCII 0-95) and B (ASCII 32-127), i.e. all of ASCII. -/
def code128Mem (c : Char) : Bool := c.toNat ≤ 127

/-- The alternating digit sums used by `EuropeanArticleNumber13.calculate_checksum`
in `ean.py`: Python iterates `ean[-1::-2]` (last character, every second one
leftwards) and `ean[-2::-2]`.  Returns `(oddsum, evensum)` in the library's
naming, i.e. (sum over `ean[-1::-2]`, sum over `ean[-2::-2]`). -/
def eanAltSums (s : PyStr) : ℕ × ℕ :=
  let rev := s.reverse
  let idx := List.range rev.length
  (((idx.filter (fun i => i % 2 = 0)).map (fun i => digitVal (rev.getD i '0'))).sum,
   ((idx.filter (fun i => i % 2 = 1)).map (fun i => digitVal (rev.getD i '0'))).sum)

/-- `EuropeanArticleNumber13.calculate_checksum` (`ean.py`):
`(10 - ((evensum + oddsum * 3) % 10)) % 10`. -/
def eanChecksum (s : PyStr) : ℕ :=
  let p := eanAltSums s
  (10 - ((p.2 + p.1 * 3) % 10)) % 10

/-- The ASCII digit character for a value `< 10`. -/
def digitChar (n : ℕ) : Char := Char.ofNat (48 + n)

/-- Model of `EuropeanArticleNumber13.__init__` (`ean.py`, `digits = 12`):
the argument is first truncated to its first 12 characters; a non-digit
truncated code raises `IllegalCharacterError`; a too-short one raises the
number-of-digits error; otherwise the checksum digit is appended and the
13-digit full code is kept. -/
def ean13Init (data : PyStr) : Except PyExc PyStr :=
  let ean := data.take 12
  if !pyIsdigit ean then .error .illegalCharacter
  else if ean.length < 12 then .error .numberOfDigits
  else .ok (ean ++ [digitChar (eanChecksum ean)])

/-- Model of `EuropeanArticleNumber8.__init__` (`ean.py`): inherits the
EAN-13 logic with `digits = 7`. -/
def ean8Init (data : PyStr) : Except PyExc PyStr :=
  let ean := data.take 7
  if !pyIsdigit ean then .error .illegalCharacter
  else if ean.length < 7 then .error .numberOfDigits
  else .ok (ean ++ [digitChar (eanChecksum ean)])

/-- `UniversalProductCodeA.calculate_checksum` (`upc.py`): digits at even
0-based positions are tripled. -/
def upcChecksum (s : PyStr) : ℕ :=
  let idx := List.range s.length
  let oddsum := ((idx.filter (fun i => i % 2 = 0)).map (fun i => digitVal (s.getD i '0'))).sum
  let evensum := ((idx.filter (fun i => i % 2 = 1)).map (fun i => digitVal (s.getD i '0'))).sum
  let check := (evensum + oddsum * 3) % 10
  if check = 0 then 0 else 10 - check

/-- Model of `UniversalProductCodeA.__init__` (`upc.py`, `digits = 11`):
truncate to 11 characters, non-digit content raises
`IllegalCharacterError`, wrong length raises the number-of-digits error,
otherwise the checksum digit is appended. -/
def upcaInit (data : PyStr) : Except PyExc PyStr :=
  let upc := data.take 11
  if !pyIsdigit upc then .error .illegalCharacter
  else if upc.length ≠ 11 then .error .numberOfDigits
  else .ok (upc ++ [digitChar (upcChecksum upc)])

/-- Model of `Code39.__init__` (`codex.py`) with its default
`add_checksum=True`: the payload is upper-cased, then
`calculate_checksum` looks every character up in the Code 39 value table —
a character outside the table raises a `KeyError` (not a library error
class), which the model folds into `PyExc.other`; on success the checksum
character is appended and `check_code` then passes. -/
def code39Init (data : PyStr) : Except PyExc PyStr :=
  let code := data.map Char.toUpper
  if code.all code39Mem then
    .ok (code ++ [code39Alphabet.getD (((code.map code39Val).sum) % 43) '0'])
  else .error .other

/-- `PZN7.calculate_checksum` (`codex.py`): the digits are weighted
2,3,...,8; a residue of 10 modulo 11 is rejected by the library with a bare
`BarcodeError` (not one of the classes `generate_barcode` catches by name). -/
def pznChecksum (s : PyStr) : ℕ :=
  (((List.range s.length).map (fun i => digitVal (s.getD i '0') * (i + 2))).sum) % 11

/-- Model of `PZN7.__init__` (`codex.py`, `digits = 7`): truncate to 7
characters, non-digit content raises `IllegalCharacterError`, wrong length
raises the number-of-digits error, a checksum residue of 10 raises a bare
`BarcodeError` (folded into `PyExc.other`); on success the rendered Code 39
payload is `PZN-` followed by the 8 digits. -/
def pzn7Init (data : PyStr) : Except PyExc PyStr :=
  let pzn := data.take 7
  if !pyIsdigit pzn then .error .illegalCharacter
  else if pzn.length ≠ 7 then .error .numberOfDigits
  else if pznChecksum pzn = 10 then .error .other
  else .ok ("PZN-".toList ++ pzn ++ [digitChar (pznChecksum pzn)])

/-- Model of `Code128.__init__` (`codex.py`): `check_code` validates every
character against the `code128.ALL` charset, raising
`IllegalCharacterError` on the first violation; the code string is kept
unchanged (the mod-103 checksum is only added while rendering). -/
def code128Init (data : PyStr) : Except PyExc PyStr :=
  if data.all code128Mem then .ok data else .error .illegalCharacter

/-- The symbology identifiers the UI offers (spec §6). -/
inductive Symbology : Type
  | code128 | code39 | ean13 | ean8 | upca | pzn7
deriving DecidableEq, Repr

/-- Modelled from the spec: `barcode.get_barcode_class` resolves a name in
the library registry, raising `BarcodeNotFoundError` for unknown names;
per spec §4.1/§6 the six identifiers the UI offers are the supported ones
(the third-party registry itself is not part of this repository). -/
def get_barcode_class (name : String) : Except PyExc Symbology :=
  if name = "code128" then .ok .code128
  else if name = "code39" then .ok .code39
  else if name = "ean13" then .ok .ean13
  else if name = "ean8" then .ok .ean8
  else if name = "upca" then .ok .upca
  else if name = "pzn7" then .ok .pzn7
  else .error .barcodeNotFound

/-- Constructing `barcode_class(data, writer=ImageWriter())` dispatches to
the validating `__init__` of the resolved symbology class and yields the
full code string that will be rendered. -/
def barcodeInstanceInit (sym : Symbology) (data : PyStr) : Except PyExc PyStr :=
  match sym with
  | .code128 => code128Init data
  | .code39 => code39Init data
  | .ean13 => ean13Init data
  | .ean8 => ean8Init data
  | .upca => upcaInit data
  | .pzn7 => pzn7Init data

/-- The rendering options dictionary built at line 27 of `src/main.py` and
handed to `barcode_instance.write`. -/
structure WriterOptions : Type where
  module_width : ℚ
  module_height : ℚ
deriving DecidableEq, Repr

/-- The options literal of line 27:
`{'module_width': 0.2 * scale, 'module_height': 10 * scale}`. -/
def writeOptions (scale : ℚ) : WriterOptions :=
  { module_width := 0.2 * scale, module_height := 10 * scale }

/-- The in-memory PIL image produced by a successful barcode render: it
carries the full code string the bars encode and the options the writer
was invoked with. -/
structure BCImage : Type where
  fullcode : PyStr
  options : WriterOptions
deriving DecidableEq, Repr

/-- What an adapter call leaves behind: the Python return value (an image
or `None`) and, when an `except` branch ran, which failure kind its
`st.error` message reported. -/
structure AdapterReturn (α : Type) : Type where
  image : Option α
  errored : Option FailKind
deriving DecidableEq, Repr

/-- The body of the `try` block of `generate_barcode` (lines 21-32 of
`src/main.py`): resolve the symbology class, construct the instance
(running the library's validation), then write the image with the scaled
options. -/
def barcodeTry (data : PyStr) (barcode_type : String) (scale : ℚ) :
    Except PyExc BCImage :=
  match get_barcode_class barcode_type with
  | .error e => .error e
  | .ok cls =>
    match barcodeInstanceInit cls data with
    | .error e => .error e
    | .ok full => .ok { fullcode := full, options := writeOptions scale }

/-- The outcome of a Python call at its public interface: a normal
return, or an exception escaping to the caller. -/
inductive PyCall (α : Type) : Type
  | returns (r : AdapterReturn α)
  | raises (handling : PyExc)
deriving DecidableEq, Repr

/-- The value a call returned: `none` both for a `None` return and for a
call that raised. -/
def PyCall.image {α : Type} : PyCall α → Option α
  | .returns r => r.image
  | .raises _ => none

/-- The failure kind a call reported through `st.error` before returning
`None`, if any (a call that raised showed no adapter error message). -/
def PyCall.errored {α : Type} : PyCall α → Option FailKind
  | .returns r => r.errored
  | .raises _ => none

/-- `generate_barcode` (lines 9-45 of `src/main.py`): the `try` body's
image is returned; a `BarcodeNotFoundError` is caught by the first
`except` clause (line 34), which shows an error and returns `None`.  For
any other exception Python evaluates the second clause's header,
`barcode.errors.NumberError` (line 37) — python-barcode defines no such
attribute, so an `AttributeError` is raised there and propagates to the
caller instead: the handlers at lines 37-45, including the catch-all, are
unreachable.  `raises e` records the library exception that was being
handled when the `AttributeError` escaped. -/
def generate_barcode (data : PyStr) (barcode_type : String) (scale : ℚ) :
    PyCall BCImage :=
  match barcodeTry data barcode_type scale with
  | .ok img => .returns { image := some img, errored := none }
  | .error .barcodeNotFound =>
    .returns { image := none, errored := some .unsupportedSymbology }
  | .error e => .raises e

/-! ## Model of the `qrcode` library's data sizing and version selection

`generate_qrcode` (lines 48-74 of `src/main.py`) configures a
`qrcode.QRCode(version=1, error_correction=ERROR_CORRECT_L, box_size=box_size,
border=2)`, adds the payload and calls `make(fit=True)`, which runs
`best_fit(start=1)`: the needed bit count of the payload is compared against
`BIT_LIMIT_TABLE[ERROR_CORRECT_L]` with `bisect_left`, recursing when the
resulting version uses wider length fields; version 41 means
`DataOverflowError`.  The model below follows `qrcode/main.py` and
`qrcode/util.py`, including `add_data`'s default chunk optimizer
(`optimal_data_chunks` with `minimum=20`), which splits payloads longer
than 20 bytes at runs of at least 20 digits or alphanumeric-charset
characters into separate mode chunks before `best_fit` sizes them. -/

/-- Error-correction levels (`qrcode.constants`). -/
inductive ECLevel : Type
  | L | M | Q | H
deriving DecidableEq, Repr

/-- QR encoding modes (`qrcode.util`: `MODE_NUMBER`, `MODE_ALPHA_NUM`,
`MODE_8BIT_BYTE`). -/
inductive QRMode : Type
  | numeric | alphanumeric | byte
deriving DecidableEq, Repr

/-- The QR alphanumeric charset (`qrcode/util.py`, `ALPHA_NUM`). -/
def qrAlphaNum : PyStr := "0123456789ABCDEFGHIJKLMNOPQRSTUVWXYZ $%*+-./:".toList

/-- Membership in the QR alphanumeric charset. -/
def qrAlphaMem (c : Char) : Bool := qrAlphaNum.contains c

/-- UTF-8 byte length of one code point (Python encodes the payload with
`str.encode()` before sizing it). -/
def utf8Len (c : Char) : ℕ :=
  if c.toNat < 128 then 1
  else if c.toNat < 2048 then 2
  else if c.toNat < 65536 then 3
  else 4

/-- The UTF-8 byte count of a payload. -/
def byteCount (s : PyStr) : ℕ := (s.map utf8Len).sum

/-- Model of `qrcode.util._optimal_split` with an unanchored
`{minimum,}` pattern: walk the payload, emit each maximal run of
pattern characters of length at least `m` as a matching (`true`) chunk
and everything between such runs as non-matching (`false`) chunks, in
order.  `pending` accumulates (in reverse) the characters of the
non-matching chunk under construction; the fuel is structural so the
kernel can evaluate the definition, and a call with fuel above the
length of `rest` never reaches the fuel-exhausted arm. -/
def chunkSplit (p : Char → Bool) (m : ℕ) :
    ℕ → PyStr → PyStr → List (Bool × PyStr)
  | 0, pending, rest =>
    if (pending.reverse ++ rest).isEmpty then []
    else [(false, pending.reverse ++ rest)]
  | fuel + 1, pending, rest =>
    match rest with
    | [] => if pending.isEmpty then [] else [(false, pending.reverse)]
    | c :: cs =>
      if p c then
        let run := (c :: cs).takeWhile p
        if m ≤ run.length then
          (if pending.isEmpty then [] else [(false, pending.reverse)]) ++
            (true, run) :: chunkSplit p m fuel [] ((c :: cs).dropWhile p)
        else
          chunkSplit p m fuel (run.reverse ++ pending) ((c :: cs).dropWhile p)
      else
        chunkSplit p m fuel (c :: pending) cs

/-- Model of `qrcode.util.optimal_data_chunks(data, minimum=20)` on the
UTF-8 bytes of the payload (`add_data`'s default `optimize=20`): a payload
of at most 20 bytes is a single chunk in its whole-content optimal mode
(the anchored-pattern path: all digits → numeric, all
alphanumeric-charset → alphanumeric, otherwise byte; an empty payload has
no chunks); a longer payload is split at runs of at least 20 digits into
numeric chunks, the remainder at runs of at least 20 alphanumeric-charset
characters into alphanumeric chunks, and what is left stays in byte mode.
Digit and alphanumeric runs are ASCII, so the library's byte-level regex
splitting coincides with this character-level model; a multi-byte
character's UTF-8 bytes match neither pattern. -/
def qrChunks (s : PyStr) : List (QRMode × PyStr) :=
  if byteCount s ≤ 20 then
    if s.isEmpty then []
    else if s.all Char.isDigit then [(.numeric, s)]
    else if s.all qrAlphaMem then [(.alphanumeric, s)]
    else [(.byte, s)]
  else
    (chunkSplit Char.isDigit 20 (s.length + 1) [] s).flatMap fun pr =>
      if pr.1 then [(QRMode.numeric, pr.2)]
      else
        (chunkSplit qrAlphaMem 20 (pr.2.length + 1) [] pr.2).map
          fun qr => (if qr.1 then QRMode.alphanumeric else QRMode.byte, qr.2)

/-- The length-field bucket of a version: `mode_sizes_for_version` returns
the small table for versions 1-9, the medium one for 10-26 and the large
one for 27-40. -/
def sizeBucket (v : ℕ) : ℕ :=
  if v < 10 then 0 else if v < 27 then 1 else 2

/-- The character-count field widths (`MODE_SIZE_SMALL` / `MEDIUM` /
`LARGE` in `qrcode/util.py`). -/
def modeLenBits (bucket : ℕ) (m : QRMode) : ℕ :=
  match m, bucket with
  | .numeric, 0 => 10 | .numeric, 1 => 12 | .numeric, _ => 14
  | .alphanumeric, 0 => 9 | .alphanumeric, 1 => 11 | .alphanumeric, _ => 13
  | .byte, 0 => 8 | .byte, _ => 16

/-- The data bits `QRData.write` emits for `n` characters of a mode:
numeric packs 3 digits in 10 bits (remainders in 4 / 7 bits), alphanumeric
packs 2 characters in 11 bits (a last one in 6), byte mode uses 8 bits per
byte. -/
def dataBits (m : QRMode) (n : ℕ) : ℕ :=
  match m with
  | .numeric => 10 * (n / 3) + (if n % 3 = 0 then 0 else if n % 3 = 1 then 4 else 7)
  | .alphanumeric => 11 * (n / 2) + 6 * (n % 2)
  | .byte => 8 * n

/-- The length-field value of a chunk (`len(data)` of the `QRData`):
numeric and alphanumeric chunks are ASCII so it is their character count,
a byte chunk counts UTF-8 bytes. -/
def chunkCount : QRMode × PyStr → ℕ
  | (QRMode.byte, c) => byteCount c
  | (_, c) => c.length

/-- The bits one chunk contributes to `best_fit`'s `BitBuffer` under the
length fields of version `v`: 4 mode bits, the character-count field, and
the chunk's data. -/
def chunkBits (v : ℕ) (ch : QRMode × PyStr) : ℕ :=
  4 + modeLenBits (sizeBucket v) ch.1 + dataBits ch.1 (chunkCount ch)

/-- The bits `best_fit` accumulates over `self.data_list` — the chunks
`add_data` produced — when the length fields of version `v` are in
force. -/
def neededBits (v : ℕ) (s : PyStr) : ℕ :=
  ((qrChunks s).map (chunkBits v)).sum

/-- Data codewords per version at error-correction level L: the row of
`qrcode.util.BIT_LIMIT_TABLE` that the configured `ERROR_CORRECT_L`
selects, divided by 8. -/
def qrDataCodewordsL : List ℕ :=
  [19, 34, 55, 80, 108, 136, 156, 194, 232, 274,
   324, 370, 428, 461, 523, 589, 647, 721, 795, 861,
   932, 1006, 1094, 1174, 1276, 1370, 1468, 1531, 1631, 1735,
   1843, 1955, 2071, 2191, 2306, 2434, 2566, 2702, 2812, 2956]

/-- The bit capacity of version `v` (1-40) at level L. -/
def bitLimitL (v : ℕ) : ℕ := 8 * qrDataCodewordsL.getD (v - 1) 0

/-- `bisect_left(BIT_LIMIT_TABLE[L], needed, start)`: the least version
`v ≥ start` (up to 40) whose capacity reaches `needed`, walked with
structural fuel so the kernel can evaluate it. -/
def findVersion (needed : ℕ) : ℕ → ℕ → Option ℕ
  | 0, _ => none
  | fuel + 1, v =>
    if 40 < v then none
    else if needed ≤ bitLimitL v then some v
    else findVersion needed fuel (v + 1)

/-- `QRCode.best_fit(start)` (`qrcode/main.py`): size the buffer with
`start`'s length fields, bisect for the first fitting version, and recurse
from that version when it needs wider length fields than `start`. -/
def bestFitAux (s : PyStr) : ℕ → ℕ → Option ℕ
  | 0, _ => none
  | fuel + 1, start =>
    match findVersion (neededBits start s) 41 start with
    | none => none
    | some v =>
      if sizeBucket v = sizeBucket start then some v
      else bestFitAux s fuel v

/-- `make(fit=True)` with the configured `version=1` runs
`best_fit(start=1)`; `none` models `DataOverflowError`. -/
def bestFit (s : PyStr) : Option ℕ := bestFitAux s 41 1

/-- The in-memory image a successful `generate_qrcode` returns: the payload
together with the configuration that built it (lines 60-69 of
`src/main.py`): the auto-selected version, the fixed error-correction level
and border, the caller's box size, and the fill/back colors of
`make_image`. -/
structure QRImage : Type where
  data : PyStr
  version : ℕ
  error_correction : ECLevel
  box_size : ℕ
  border : ℕ
  fill_color : String
  back_color : String
deriving DecidableEq, Repr

/-- The body of the `try` block of `generate_qrcode` (lines 59-70):
construct the `QRCode` with the fixed policy, `add_data`, `make(fit=True)`
(raising `DataOverflowError`, modelled as `PyExc.other`, when even version
40 cannot hold the payload), then render the image. -/
def qrcodeTry (data : PyStr) (box_size : ℕ) : Except PyExc QRImage :=
  match bestFit data with
  | some v =>
    .ok { data := data, version := v, error_correction := .L,
          box_size := box_size, border := 2,
          fill_color := "black", back_color := "white" }
  | none => .error .other

/-- `generate_qrcode` (lines 48-74 of `src/main.py`): the single catch-all
`except` absorbs every failure into an error message and `None`. -/
def generate_qrcode (data : PyStr) (box_size : ℕ) : AdapterReturn QRImage :=
  match qrcodeTry data box_size with
  | .ok img => { image := some img, errored := none }
  | .error _ => { image := none, errored := some .unknown }

/-! ## The interaction orchestrator (`main`, lines 77-121 of `src/main.py`)

One interaction cycle reads the widget state (the radio kind, the text
payload, whether Generate was pressed, and the symbology selectbox), and
either warns on an empty payload or dispatches to the matching adapter and
renders the outcome.  The embedding returns everything a cycle surfaces;
a session is the list of independent cycles (the script holds no state
between reruns: no globals, no `st.session_state`). -/

/-- The value of the kind radio widget (line 80): one of the two offered
options. -/
inductive CodeType : Type
  | barcode | qrCode
deriving DecidableEq, Repr

/-- The widget state one cycle of `main` reads. -/
structure FormState : Type where
  code_type : CodeType
  data : PyStr
  generatePressed : Bool
  barcode_type : String
deriving DecidableEq, Repr

/-- An invocation of one of the two adapters, with the arguments `main`
passes (lines 94 and 98). -/
inductive AdapterCall : Type
  | toBarcode (data : PyStr) (barcode_type : String) (scale : ℚ)
  | toQrcode (data : PyStr) (box_size : ℕ)
deriving DecidableEq, Repr

/-- The payload argument of an adapter invocation. -/
def AdapterCall.payload : AdapterCall → PyStr
  | .toBarcode d _ _ => d
  | .toQrcode d _ => d

/-- The image value `main` holds after an adapter call. -/
inductive GeneratedImage : Type
  | ofBarcode (i : BCImage)
  | ofQrcode (i : QRImage)
deriving DecidableEq, Repr

/-- Everything one cycle of `main` surfaces to the user. -/
structure CycleOutput : Type where
  /-- The `st.warning` text, if line 86 ran. -/
  warning : Option String
  /-- The adapter invocations the cycle performed. -/
  calls : List AdapterCall
  /-- The adapter's failure kind, if one of its `except` branches ran. -/
  adapterError : Option FailKind
  /-- The image shown inline by `st.image` (line 107). -/
  shown : Option GeneratedImage
  /-- The `st.download_button` payload (lines 114-119): file name and the
  image whose PNG bytes it serves. -/
  download : Option (String × GeneratedImage)
  /-- Whether the terminal error of line 121 was shown. -/
  generationFailed : Bool
  /-- When the cycle aborted with an uncaught exception — the
  `AttributeError` from the broken clause at line 37 — the library
  exception that was being handled at that moment; `none` for a cycle
  that ran to completion. -/
  raised : Option PyExc
deriving DecidableEq, Repr

/-- A cycle in which nothing happened. -/
def emptyCycle : CycleOutput :=
  { warning := none, calls := [], adapterError := none, shown := none,
    download := none, generationFailed := false, raised := none }

/-- Lines 101-121 of `src/main.py`: with the adapter already invoked, an
image in hand is shown inline and offered for download under the fixed
file name, while `None` ends the cycle in the failure message. -/
def renderStep (calls : List AdapterCall) (img : Option GeneratedImage)
    (err : Option FailKind) (filename : String) : CycleOutput :=
  match img with
  | some i =>
    { warning := none, calls := calls, adapterError := err,
      shown := some i, download := some (filename, i),
      generationFailed := false, raised := none }
  | none =>
    { warning := none, calls := calls, adapterError := err,
      shown := none, download := none, generationFailed := true,
      raised := none }

/-- One interaction cycle of `main` (lines 84-121): nothing happens without
a button press; an empty payload short-circuits to the warning; otherwise
the kind selects the adapter (`scale=1` for barcodes, `box_size=2` for QR)
and the fixed file name, and a returned outcome is rendered.  A barcode
call can instead abort the script run with the propagating
`AttributeError` (see `generate_barcode`), in which case nothing after
line 94 runs. -/
def mainCycle (st : FormState) : CycleOutput :=
  if !st.generatePressed then emptyCycle
  else if st.data.isEmpty then
    { emptyCycle with warning := some "Please enter data." }
  else
    match st.code_type with
    | .barcode =>
      match generate_barcode st.data st.barcode_type 1 with
      | .returns r =>
        renderStep [.toBarcode st.data st.barcode_type 1]
          (r.image.map .ofBarcode) r.errored "barcode.png"
      | .raises e =>
        { warning := none, calls := [.toBarcode st.data st.barcode_type 1],
          adapterError := none, shown := none, download := none,
          generationFailed := false, raised := some e }
    | .qrCode =>
      let r := generate_qrcode st.data 2
      renderStep [.toQrcode st.data 2] (r.image.map .ofQrcode) r.errored
        "qrcode.png"

/-- A session: each Streamlit rerun executes the script body afresh, so the
outputs of a list of cycles are the independent per-cycle outputs. -/
def runSession (inputs : List FormState) : List CycleOutput :=
  inputs.map mainCycle

/-! ## Helper lemmas -/

theorem renderStep_calls (cs : List AdapterCall) (img : Option GeneratedImage)
    (err : Option FailKind) (f : String) : (renderStep cs img err f).calls = cs := by
  cases img <;> rfl

theorem all_eq_false_of_mem (l : List Char) (p : Char → Bool) (c : Char)
    (hc : c ∈ l) (h : p c = false) : l.all p = false := by
  by_contra hb
  rw [Bool.not_eq_false, List.all_eq_true] at hb
  have h2 := hb c hc
  rw [h] at h2
  exact Bool.false_ne_true h2

/-- C1: in every cycle with Generate pressed, an empty payload makes the
orchestrator emit the warning "Please enter data." and return without any
adapter invocation (and nothing is shown or offered for download); moreover
no adapter invocation of any cycle carries an empty payload. -/
theorem c1_empty_payload_warns_and_skips_adapters :
    ∀ st : FormState, st.generatePressed = true →
      (st.data = [] →
        (mainCycle st).warning = some "Please enter data." ∧
        (mainCycle st).calls = [] ∧ (mainCycle st).shown = none ∧
        (mainCycle st).download = none) ∧
      (∀ c ∈ (mainCycle st).calls, c.payload ≠ []) := by
  intro st hgen
  refine ⟨fun hd => ?_, fun c hc => ?_⟩
  · simp [mainCycle, hgen, hd, emptyCycle]
  · by_cases hd : st.data = []
    · simp [mainCycle, hgen, hd, emptyCycle] at hc
    · have hne : st.data.isEmpty = false := by
        simpa [List.isEmpty_iff] using hd
      cases hk : st.code_type
      · cases hr : generate_barcode st.data st.barcode_type 1 <;>
          simp [mainCycle, hgen, hne, hk, hr, renderStep_calls] at hc <;>
          simp [hc, AdapterCall.payload, hd]
      · simp [mainCycle, hgen, hne, hk, renderStep_calls] at hc
        simp [hc, AdapterCall.payload, hd]

/-- Witness for C1 at a concrete empty-payload cycle. -/
theorem c1_witness :
    (mainCycle { code_type := .barcode, data := [], generatePressed := true,
                 barcode_type := "code128" }).warning =
      some "Please enter data." ∧
    (mainCycle { code_type := .barcode, data := [], generatePressed := true,
                 barcode_type := "code128" }).calls = [] := by
  have h := c1_empty_payload_warns_and_skips_adapters
    { code_type := .barcode, data := [], generatePressed := true,
      barcode_type := "code128" } rfl
  exact ⟨(h.1 rfl).1, (h.1 rfl).2.1⟩

/-! ## C3: short EAN-13 payloads -/

theorem barcodeTry_ok_options (data : PyStr) (bt : String) (scale : ℚ)
    (i : BCImage) (h : barcodeTry data bt scale = .ok i) :
    i.options = writeOptions scale := by
  unfold barcodeTry at h
  split at h
  · exact absurd h (by simp)
  · split at h
    · exact absurd h (by simp)
    · injection h with h2
      rw [← h2]

/-- C6: the rendering options handed to the barcode writer at line 27 set
`module_width` to exactly 0.2 · scale and `module_height` to exactly
10 · scale, for every scale. -/
theorem c6_writer_options_scale_linearly :
    ∀ (data : PyStr) (bt : String) (scale : ℚ) (img : BCImage),
      (generate_barcode data bt scale).image = some img →
      img.options.module_width = 0.2 * scale ∧
      img.options.module_height = 10 * scale := by
  intro data bt scale img h
  unfold generate_barcode at h
  cases htry : barcodeTry data bt scale <;> rw [htry] at h
  case error e =>
    cases e <;> simp [PyCall.image] at h
  case ok i =>
    simp [PyCall.image] at h
    rw [← h, barcodeTry_ok_options data bt scale i htry]
    exact ⟨rfl, rfl⟩

/-- Witness for C6 at payload "a", symbology code128, scale 1. -/
theorem c6_witness :
    ({ fullcode := ['a'], options := writeOptions 1 } : BCImage).options.module_width =
      0.2 * 1 ∧
    ({ fullcode := ['a'], options := writeOptions 1 } : BCImage).options.module_height =
      10 * 1 :=
  c6_writer_options_scale_linearly ['a'] "code128" 1 _ rfl

/-! ## C7: rendering and download per adapter outcome -/

/-- C7: with Generate pressed and a non-empty payload, a Success returned
by the selected adapter is shown inline and offered as a download named
`barcode.png` for the Barcode kind and `qrcode.png` for the QR Code kind;
a returned Failure (`None`) yields no download and ends in the failure
message of line 121; and a barcode call that aborts with the propagating
`AttributeError` shows and offers nothing either. -/
theorem c7_download_filenames_per_kind :
    ∀ st : FormState, st.generatePressed = true → st.data ≠ [] →
      (st.code_type = .barcode →
        (∀ r i, generate_barcode st.data st.barcode_type 1 = .returns r →
          r.image = some i →
          (mainCycle st).shown = some (.ofBarcode i) ∧
          (mainCycle st).download = some ("barcode.png", .ofBarcode i)) ∧
        (∀ r, generate_barcode st.data st.barcode_type 1 = .returns r →
          r.image = none →
          (mainCycle st).download = none ∧
          (mainCycle st).generationFailed = true) ∧
        (∀ e, generate_barcode st.data st.barcode_type 1 = .raises e →
          (mainCycle st).download = none ∧ (mainCycle st).shown = none ∧
          (mainCycle st).raised = some e)) ∧
      (st.code_type = .qrCode →
        (∀ i, (generate_qrcode st.data 2).image = some i →
          (mainCycle st).shown = some (.ofQrcode i) ∧
          (mainCycle st).download = some ("qrcode.png", .ofQrcode i)) ∧
        ((generate_qrcode st.data 2).image = none →
          (mainCycle st).download = none ∧
          (mainCycle st).generationFailed = true)) := by
  intro st hgen hdata
  have hne : st.data.isEmpty = false := by simpa [List.isEmpty_iff] using hdata
  constructor
  · intro hk
    refine ⟨fun r i hr hi => ?_, fun r hr hi => ?_, fun e he => ?_⟩
    · simp [mainCycle, hgen, hne, hk, hr, hi, renderStep]
    · simp [mainCycle, hgen, hne, hk, hr, hi, renderStep]
    · simp [mainCycle, hgen, hne, hk, he]
  · intro hk
    refine ⟨fun i hi => ?_, fun hn => ?_⟩
    · simp [mainCycle, hgen, hne, hk, hi, renderStep]
    · simp [mainCycle, hgen, hne, hk, hn, renderStep]

/-- Witness for C7: a successful EAN-13 cycle downloads `barcode.png`; an
unknown symbology returns `None` and offers no download; the crashing
`"abc"`/ean13 cycle offers no download either. -/
theorem c7_witness :
    (mainCycle { code_type := .barcode, data := "123456789012".toList,
                 generatePressed := true, barcode_type := "ean13" }).download =
      some ("barcode.png",
        .ofBarcode { fullcode := "1234567890128".toList,
                     options := writeOptions 1 }) ∧
    (mainCycle { code_type := .barcode, data := ['1'],
                 generatePressed := true, barcode_type := "qr" }).download =
      none ∧
    (mainCycle { code_type := .barcode, data := ['a', 'b', 'c'],
                 generatePressed := true, barcode_type := "ean13" }).download =
      none := by
  refine ⟨?_, ?_, ?_⟩
  · exact (((c7_download_filenames_per_kind
      { code_type := .barcode, data := "123456789012".toList,
        generatePressed := true, barcode_type := "ean13" } rfl (by decide)).1
      rfl).1 _ _ (by rfl) (by rfl)).2
  · exact ((((c7_download_filenames_per_kind
      { code_type := .barcode, data := ['1'],
        generatePressed := true, barcode_type := "qr" } rfl (by decide)).1
      rfl).2.1) _ (by rfl) (by rfl)).1
  · exact ((((c7_download_filenames_per_kind
      { code_type := .barcode, data := ['a', 'b', 'c'],
        generatePressed := true, barcode_type := "ean13" } rfl
      (by decide)).1 rfl).2.2) .illegalCharacter (by rfl)).1

/-! ## C8: statelessness and determinism across cycles -/

/-- C8: the outcome of a submit cycle is a function of that cycle's input
alone: the final cycle of any session equals `mainCycle` of its input
(hence two identical submissions give identical results), every position
of a session's output depends only on the same position of its input, and
no cycle's output is affected by the preceding history. -/
theorem c8_cycles_independent_and_deterministic :
    ∀ (h₁ h₂ : List FormState) (s : FormState),
      (runSession (h₁ ++ [s])).getLast? = some (mainCycle s) ∧
      (runSession (h₁ ++ [s])).getLast? =
        (runSession (h₂ ++ [s])).getLast? ∧
      (∀ i : ℕ, (runSession h₁)[i]? = h₁[i]?.map mainCycle) := by
  intro h₁ h₂ s
  refine ⟨?_, ?_, ?_⟩
  · simp [runSession]
  · simp [runSession]
  · intro i
    simp [runSession, List.getElem?_map]

/-! ## C10: the adapters' exception behaviour -/

/-- C10 is a bug the code has and the claim (like `generate_barcode`'s own
docstring, "Returns: A PIL Image object if successful, None otherwise")
denies: line 37 catches `barcode.errors.NumberError`, a class
python-barcode does not define, so for every failing barcode encode other
than an unknown symbology the clause's evaluation raises an
`AttributeError` that propagates to the caller — the catch-all at line 43
is never consulted.  At the failing input `data="123"`,
`barcode_type="ean13"` the call raises while handling the number-of-digits
error (and at `"abc"` while handling `IllegalCharacterError`); only
`BarcodeNotFoundError` is absorbed into a `None` return.
`generate_qrcode`, whose single catch-all names a class that exists, is
total as claimed. -/
theorem c10_barcode_exception_escapes :
    generate_barcode ['1', '2', '3'] "ean13" 1 = .raises .numberOfDigits ∧
    generate_barcode ['a', 'b', 'c'] "ean13" 1 =
      .raises .illegalCharacter ∧
    (generate_barcode ['1'] "nosuch" 1).image = none ∧
    ∀ (data : PyStr) (box : ℕ),
      (generate_qrcode data box).image.isSome = true ∨
      (generate_qrcode data box).image = none := by
  refine ⟨by decide, by decide, by decide, fun data box => ?_⟩
  unfold generate_qrcode
  cases qrcodeTry data box <;> simp

/-! ## Lemmas on the QR version search -/

theorem modeLenBits_mono (b b' : ℕ) (m : QRMode) (h : b ≤ b') :
    modeLenBits b m ≤ modeLenBits b' m := by
  cases m <;> rcases b with _ | _ | b <;> rcases b' with _ | _ | b' <;>
    simp [modeLenBits] <;> omega

theorem modeLenBits_le_16 (b : ℕ) (m : QRMode) : modeLenBits b m ≤ 16 := by
  cases m <;> rcases b with _ | _ | b <;> simp [modeLenBits]

theorem modeLenBits_byte_ge (b : ℕ) : 8 ≤ modeLenBits b .byte := by
  rcases b with _ | b <;> simp [modeLenBits]

theorem sizeBucket_mono (v v' : ℕ) (h : v ≤ v') :
    sizeBucket v ≤ sizeBucket v' := by
  unfold sizeBucket
  split_ifs <;> omega

theorem chunkBits_mono (v v' : ℕ) (ch : QRMode × PyStr) (h : v ≤ v') :
    chunkBits v ch ≤ chunkBits v' ch := by
  unfold chunkBits
  have := modeLenBits_mono (sizeBucket v) (sizeBucket v') ch.1
    (sizeBucket_mono v v' h)
  omega

theorem neededBits_mono (v v' : ℕ) (s : PyStr) (h : v ≤ v') :
    neededBits v s ≤ neededBits v' s := by
  unfold neededBits
  exact List.sum_le_sum fun ch _ => chunkBits_mono v v' ch h

theorem neededBits_eq_of_bucket (v v' : ℕ) (s : PyStr)
    (h : sizeBucket v = sizeBucket v') : neededBits v s = neededBits v' s := by
  unfold neededBits chunkBits
  simp only [h]

theorem findVersion_some_spec (needed : ℕ) :
    ∀ (fuel v0 w : ℕ), findVersion needed fuel v0 = some w →
      v0 ≤ w ∧ w ≤ 40 ∧ needed ≤ bitLimitL w ∧
      ∀ u, v0 ≤ u → u < w → bitLimitL u < needed := by
  intro fuel
  induction fuel with
  | zero =>
    intro v0 w h
    exact absurd h (by simp [findVersion])
  | succ n ih =>
    intro v0 w h
    unfold findVersion at h
    split at h
    · exact absurd h (by simp)
    next hle =>
      split at h
      next hfit =>
        injection h with h2
        subst h2
        exact ⟨le_refl _, by omega, hfit, fun u hu1 hu2 => by omega⟩
      next hnofit =>
        obtain ⟨h1, h2, h3, h4⟩ := ih (v0 + 1) w h
        refine ⟨by omega, h2, h3, fun u hu1 hu2 => ?_⟩
        rcases eq_or_lt_of_le hu1 with he | hlt
        · rw [← he]
          omega
        · exact h4 u (by omega) hu2

theorem findVersion_some_of (needed : ℕ) :
    ∀ (fuel v0 : ℕ), 41 ≤ fuel + v0 → v0 ≤ 40 → needed ≤ bitLimitL 40 →
      ∃ w, findVersion needed fuel v0 = some w := by
  intro fuel
  induction fuel with
  | zero =>
    intro v0 h1 h2 h3
    omega
  | succ n ih =>
    intro v0 h1 h2 h3
    unfold findVersion
    split
    · omega
    split
    · exact ⟨v0, rfl⟩
    next hnofit =>
      have hv40 : v0 ≠ 40 := fun he => hnofit (by rw [he]; exact h3)
      exact ih (v0 + 1) (by omega) (by omega) h3

theorem bestFitAux_some_spec (s : PyStr) :
    ∀ (fuel start w : ℕ), 1 ≤ start →
      (∀ u, 1 ≤ u → u < start → bitLimitL u < neededBits u s) →
      bestFitAux s fuel start = some w →
      1 ≤ w ∧ w ≤ 40 ∧ neededBits w s ≤ bitLimitL w ∧
      ∀ u, 1 ≤ u → u < w → bitLimitL u < neededBits u s := by
  intro fuel
  induction fuel with
  | zero =>
    intro start w h1 hinv h
    exact absurd h (by simp [bestFitAux])
  | succ n ih =>
    intro start w h1 hinv h
    unfold bestFitAux at h
    cases hf : findVersion (neededBits start s) 41 start with
    | none =>
      rw [hf] at h
      exact absurd h (by simp)
    | some v =>
      rw [hf] at h
      have h' : (if sizeBucket v = sizeBucket start then some v
          else bestFitAux s n v) = some w := h
      obtain ⟨hv1, hv2, hv3, hv4⟩ := findVersion_some_spec _ 41 start v hf
      have hinv2 : ∀ u, 1 ≤ u → u < v → bitLimitL u < neededBits u s := by
        intro u hu1 hu2
        by_cases hus : u < start
        · exact hinv u hu1 hus
        · have hle : start ≤ u := by omega
          calc bitLimitL u < neededBits start s := hv4 u hle hu2
            _ ≤ neededBits u s := neededBits_mono start u s hle
      split at h'
      next hbeq =>
        injection h' with h2
        subst h2
        refine ⟨by omega, hv2, ?_, hinv2⟩
        rw [neededBits_eq_of_bucket v start s hbeq]
        exact hv3
      next hbne =>
        exact ih v w (by omega) hinv2 h'

theorem bestFitAux_some_of (s : PyStr)
    (hfit : neededBits 40 s ≤ bitLimitL 40) :
    ∀ (fuel start : ℕ), 1 ≤ start → start ≤ 40 → 40 < fuel + start →
      ∃ w, bestFitAux s fuel start = some w := by
  intro fuel
  induction fuel with
  | zero =>
    intro start h1 h2 h3
    omega
  | succ n ih =>
    intro start h1 h2 h3
    unfold bestFitAux
    have hns : neededBits start s ≤ bitLimitL 40 :=
      le_trans (neededBits_mono start 40 s h2) hfit
    obtain ⟨v, hv⟩ := findVersion_some_of (neededBits start s) 41 start
      (by omega) h2 hns
    rw [hv]
    obtain ⟨hv1, hv2, _, _⟩ := findVersion_some_spec _ 41 start v hv
    show ∃ w, (if sizeBucket v = sizeBucket start then some v
      else bestFitAux s n v) = some w
    split
    · exact ⟨v, rfl⟩
    next hbne =>
      have hne : start ≠ v := fun he => hbne (by rw [he])
      exact ih v (by omega) hv2 (by omega)

theorem bestFit_some_spec (s : PyStr) (w : ℕ) (h : bestFit s = some w) :
    1 ≤ w ∧ w ≤ 40 ∧ neededBits w s ≤ bitLimitL w ∧
    ∀ u, 1 ≤ u → u < w → bitLimitL u < neededBits u s :=
  bestFitAux_some_spec s 41 1 w (le_refl 1) (fun u hu1 hu2 => by omega) h

theorem bestFit_isSome_of_fits (s : PyStr)
    (hfit : neededBits 40 s ≤ bitLimitL 40) : ∃ w, bestFit s = some w :=
  bestFitAux_some_of s hfit 41 1 (le_refl 1) (by omega) (by omega)

theorem bestFit_none_of_overflow (s : PyStr)
    (H : ∀ v, 1 ≤ v → v ≤ 40 → bitLimitL v < neededBits v s) :
    bestFit s = none := by
  cases hb : bestFit s with
  | none => rfl
  | some w =>
    obtain ⟨h1, h2, h3, _⟩ := bestFit_some_spec s w hb
    exact absurd h3 (not_le.mpr (H w h1 h2))

/-! ## Single-byte-chunk payloads and overflow -/

theorem bitLimitL_le_v39 : ∀ v, v < 40 → bitLimitL v ≤ 22496 := by decide

theorem chunkSplit_no_match (p : Char → Bool) (m : ℕ) :
    ∀ (fuel : ℕ) (pending rest : PyStr), (∀ c ∈ rest, p c = false) →
      rest.length < fuel →
      chunkSplit p m fuel pending rest =
        if (pending.reverse ++ rest).isEmpty then []
        else [(false, pending.reverse ++ rest)] := by
  intro fuel
  induction fuel with
  | zero =>
    intro pending rest h hlen
    exact absurd hlen (by omega)
  | succ n ih =>
    intro pending rest h hlen
    cases rest with
    | nil => simp [chunkSplit]
    | cons c cs =>
      have hc : p c = false := h c (by simp)
      have hrec := ih (c :: pending) cs
        (fun x hx => h x (List.mem_cons_of_mem c hx)) (by simpa using hlen)
      simp only [chunkSplit, hc, Bool.false_eq_true, if_false, hrec,
        List.reverse_cons, List.append_assoc, List.cons_append,
        List.nil_append]

theorem chunkSplit_no_match_nil (p : Char → Bool) (m : ℕ) (fuel : ℕ)
    (s : PyStr) (h : ∀ c ∈ s, p c = false) (hlen : s.length < fuel)
    (hne : s ≠ []) : chunkSplit p m fuel [] s = [(false, s)] := by
  rw [chunkSplit_no_match p m fuel [] s h hlen]
  simp [List.isEmpty_iff, hne]

theorem qrChunks_all_byte (s : PyStr) (hne : s ≠ [])
    (hd : ∀ c ∈ s, c.isDigit = false)
    (ha : ∀ c ∈ s, qrAlphaMem c = false) :
    qrChunks s = [(.byte, s)] := by
  obtain ⟨c0, hc0⟩ := List.exists_mem_of_ne_nil s hne
  have hall1 : s.all Char.isDigit = false :=
    all_eq_false_of_mem _ _ c0 hc0 (hd c0 hc0)
  have hall2 : s.all qrAlphaMem = false :=
    all_eq_false_of_mem _ _ c0 hc0 (ha c0 hc0)
  have hnee : s.isEmpty = false := by simpa [List.isEmpty_iff] using hne
  unfold qrChunks
  by_cases hb : byteCount s ≤ 20
  · simp [hb, hnee, hall1, hall2]
  · have h1 := chunkSplit_no_match_nil Char.isDigit 20 (s.length + 1) s
      hd (by omega) hne
    have h2 := chunkSplit_no_match_nil qrAlphaMem 20 (s.length + 1) s
      ha (by omega) hne
    simp [hb, h1, h2]

theorem allByte_overflow_bits (s : PyStr) (hne : s ≠ [])
    (hd : ∀ c ∈ s, c.isDigit = false)
    (ha : ∀ c ∈ s, qrAlphaMem c = false)
    (hn : 2954 ≤ byteCount s) :
    ∀ v, 1 ≤ v → v ≤ 40 → bitLimitL v < neededBits v s := by
  intro v hv1 hv2
  have hneed : neededBits v s =
      4 + modeLenBits (sizeBucket v) .byte + 8 * byteCount s := by
    unfold neededBits
    rw [qrChunks_all_byte s hne hd ha]
    simp [chunkBits, chunkCount, dataBits]
  rcases lt_or_eq_of_le hv2 with h40 | h40
  · have hlim := bitLimitL_le_v39 v h40
    have h8 := modeLenBits_byte_ge (sizeBucket v)
    omega
  · subst h40
    have hlim : bitLimitL 40 = 23648 := by decide
    have hbucket : sizeBucket 40 = 2 := by decide
    rw [hbucket] at hneed
    have h16 : modeLenBits 2 .byte = 16 := by decide
    rw [h16] at hneed
    omega

theorem qrOverflow_of_all_byte (s : PyStr) (hne : s ≠ [])
    (hd : ∀ c ∈ s, c.isDigit = false)
    (ha : ∀ c ∈ s, qrAlphaMem c = false)
    (hn : 2954 ≤ byteCount s) : bestFit s = none :=
  bestFit_none_of_overflow s (allByte_overflow_bits s hne hd ha hn)

theorem replicate_a_ne_nil (n : ℕ) (hn : 0 < n) :
    List.replicate n 'a' ≠ ([] : PyStr) := by
  intro hcon
  have hlen : (List.replicate n 'a').length = ([] : PyStr).length :=
    congrArg List.length hcon
  rw [List.length_replicate, List.length_nil] at hlen
  omega

theorem replicate_a_byteCount (n : ℕ) :
    byteCount (List.replicate n 'a') = n := by
  unfold byteCount
  rw [List.map_replicate]
  have h : utf8Len 'a' = 1 := by decide
  rw [h, List.sum_replicate, smul_eq_mul, mul_one]

theorem replicate_a_not_digit (n : ℕ) :
    ∀ c ∈ List.replicate n 'a', c.isDigit = false := by
  intro c hc
  rw [(List.mem_replicate.mp hc).2]
  decide

theorem replicate_a_not_alnum (n : ℕ) :
    ∀ c ∈ List.replicate n 'a', qrAlphaMem c = false := by
  intro c hc
  rw [(List.mem_replicate.mp hc).2]
  decide

theorem replicate3000_overflow : bestFit (List.replicate 3000 'a') = none :=
  qrOverflow_of_all_byte _ (replicate_a_ne_nil 3000 (by omega))
    (replicate_a_not_digit 3000) (replicate_a_not_alnum 3000)
    (by rw [replicate_a_byteCount]; omega)

theorem qrcodeTry_replicate3000 :
    qrcodeTry (List.replicate 3000 'a') 2 = .error .other := by
  unfold qrcodeTry
  rw [replicate3000_overflow]

/-! ## C2: QR success for non-empty payloads -/

/-- C2 counterexample: the non-empty 3000-character payload `aaa…a` — a
single byte-mode chunk of 3000 bytes, over the 2953-byte byte-mode
capacity of version 40 — makes the library raise `DataOverflowError`; the
catch-all at line 72 turns it into `None`, not Success. -/
theorem c2_counterexample :
    List.replicate 3000 'a' ≠ ([] : PyStr) ∧
    (generate_qrcode (List.replicate 3000 'a') 2).image = none ∧
    (generate_qrcode (List.replicate 3000 'a') 2).errored =
      some .unknown := by
  refine ⟨replicate_a_ne_nil 3000 (by omega), ?_, ?_⟩
  · unfold generate_qrcode
    rw [qrcodeTry_replicate3000]
  · unfold generate_qrcode
    rw [qrcodeTry_replicate3000]

/-- C2 amended: a non-empty payload yields Success exactly when some
version 1-40 can hold its chunked encoding at the configured level L: if
the encoding sized with version 40's length fields fits version 40's
capacity, the adapter returns an image; when every version's capacity is
exceeded, the `DataOverflowError` is absorbed by the working catch-all at
line 72 into `Failure(Unknown)` — as for 3000 repetitions of `'a'`, a
single byte-mode chunk beyond the 2953-byte byte-mode capacity. -/
theorem c2_amended_success_within_capacity :
    ∀ (s : PyStr) (box : ℕ),
      (s ≠ [] → neededBits 40 s ≤ bitLimitL 40 →
        (generate_qrcode s box).image.isSome = true) ∧
      ((∀ v, 1 ≤ v → v ≤ 40 → bitLimitL v < neededBits v s) →
        (generate_qrcode s box).image = none ∧
        (generate_qrcode s box).errored = some .unknown) := by
  intro s box
  constructor
  · intro _ hfit
    obtain ⟨w, hw⟩ := bestFit_isSome_of_fits s hfit
    unfold generate_qrcode qrcodeTry
    rw [hw]
    rfl
  · intro hov
    have hnone : bestFit s = none := bestFit_none_of_overflow s hov
    unfold generate_qrcode qrcodeTry
    rw [hnone]
    exact ⟨rfl, rfl⟩

/-- Witness for the amended C2: "hello" (one 60-bit byte chunk) fits and
succeeds; 3000 repetitions of 'a' exceed every version and fail. -/
theorem c2_witness :
    (generate_qrcode ['h', 'e', 'l', 'l', 'o'] 2).image.isSome = true ∧
    (generate_qrcode (List.replicate 3000 'a') 2).image = none := by
  constructor
  · exact (c2_amended_success_within_capacity ['h', 'e', 'l', 'l', 'o'] 2).1
      (by decide) (by decide)
  · exact ((c2_amended_success_within_capacity (List.replicate 3000 'a')
      2).2 (allByte_overflow_bits _ (replicate_a_ne_nil 3000 (by omega))
        (replicate_a_not_digit 3000) (replicate_a_not_alnum 3000)
        (by rw [replicate_a_byteCount]; omega))).1

/-! ## C5: the fixed QR policy -/

/-- C5: every QR image `generate_qrcode` produces is built with
error-correction level L, a border of exactly 2 modules, the caller's box
size, and the version auto-selected as the smallest grid (1-40) whose
capacity holds the payload's encoding — for every payload and box size. -/
theorem c5_qr_policy_smallest_fitting_version :
    ∀ (data : PyStr) (box : ℕ) (img : QRImage),
      (generate_qrcode data box).image = some img →
      img.error_correction = .L ∧ img.border = 2 ∧ img.box_size = box ∧
      img.data = data ∧ 1 ≤ img.version ∧ img.version ≤ 40 ∧
      neededBits img.version data ≤ bitLimitL img.version ∧
      ∀ u, 1 ≤ u → u < img.version →
        bitLimitL u < neededBits u data := by
  intro data box img h
  unfold generate_qrcode qrcodeTry at h
  cases hb : bestFit data with
  | none =>
    rw [hb] at h
    exact absurd h (by simp)
  | some v =>
    rw [hb] at h
    simp only [Option.some.injEq] at h
    obtain ⟨h1, h2, h3, h4⟩ := bestFit_some_spec data v hb
    rw [← h]
    exact ⟨rfl, rfl, rfl, rfl, h1, h2, h3, h4⟩

/-- Witness for C5 at payload "hello", box size 2: level L, border 2,
version 1. -/
theorem c5_witness :
    (generate_qrcode ['h', 'e', 'l', 'l', 'o'] 2).image.map
      QRImage.error_correction = some ECLevel.L ∧
    (generate_qrcode ['h', 'e', 'l', 'l', 'o'] 2).image.map QRImage.border =
      some 2 ∧
    (generate_qrcode ['h', 'e', 'l', 'l', 'o'] 2).image.map
      QRImage.version = some 1 := by
  have h : (generate_qrcode ['h', 'e', 'l', 'l', 'o'] 2).image =
      some { data := ['h', 'e', 'l', 'l', 'o'], version := 1,
             error_correction := .L, box_size := 2, border := 2,
             fill_color := "black", back_color := "white" } := by rfl
  have h5 := c5_qr_policy_smallest_fitting_version
    ['h', 'e', 'l', 'l', 'o'] 2 _ h
  rw [h]
  exact ⟨by simp [h5.1], by simp [h5.2.1], rfl⟩
